import Mathlib

/-!
Shallow embedding of `examples/visualize_grid.py` from the `aatgrid`
repository.  The script is a straight-line matplotlib program: it draws a
six-panel overview figure and a nesting-detail figure, then saves each to a
fixed PNG path.  We model every drawing call as a `DrawCmd` value with
rational coordinates (all literals in the script are decimal constants), the
two `plt.savefig` calls and the `print` calls as an effect trace, and the
few loops (the L2 grid loops, the tile-index loop with its running `idx`,
the UTM-zone loop, the design-principles loop) as structurally identical
Lean recursions.
-/

/-- Fill colors used by the script: either a named matplotlib color string
(including the literal `"none"` for no fill) or an entry of
`plt.cm.viridis(np.linspace(0, 1, 36))`, identified by its linspace
parameter in `[0, 1]`. -/
inductive FillColor where
  | named (s : String)
  | viridis (t : ℚ)
  deriving DecidableEq, Repr

/-- One drawing call of the script.  Coordinates are the literal rational
constants of the source; style parameters that no claim mentions
(linewidths, alphas, font sizes, box styles) are abstracted away, while
geometry, label text, edge color and face color are kept. -/
inductive DrawCmd where
  /-- `Rectangle((x, y), w, h, edgecolor=e, facecolor=f)` + `add_patch`. -/
  | rect (x y w h : ℚ) (edgecolor : String) (facecolor : FillColor)
  /-- `FancyBboxPatch((x, y), w, h, facecolor=f)` + `add_patch` (panel 5). -/
  | fancyBox (x y w h : ℚ) (facecolor : FillColor)
  /-- `ax.text(x, y, s)`. -/
  | text (x y : ℚ) (s : String)
  /-- `ax.annotate(s, xy=(x, y), xytext=(tx, ty))` with an arrow. -/
  | annotate (s : String) (x y tx ty : ℚ)
  /-- `ax.annotate('', xy=(x1, y1), xytext=(x2, y2))`: a dimension arrow. -/
  | arrow (x1 y1 x2 y2 : ℚ)
  /-- `ax.plot(lon, lat, 'o', color=c)`: a location marker. -/
  | point (x y : ℚ) (color : String)
  /-- `ax.axvline(x)`. -/
  | vline (x : ℚ)
  /-- `ax.axhline(y)`. -/
  | hline (y : ℚ)
  deriving DecidableEq, Repr

/-- Outer (L1) tile edge length in km: the literal `36` of
`Rectangle((0, 0), 36, 36, ...)`. -/
def l1Edge : ℚ := 36

/-- Inner (L2) tile edge length in km: the literal `6` of
`Rectangle((x, y), 6, 6, ...)`. -/
def l2Edge : ℚ := 6

/-- Inner tiles per outer-tile edge: the literal `6` of `range(6)` in both
L2 grid loops. -/
def nestingFactor : ℕ := 6

/-- Membership in the L2 cell with indices `(i, j)`: the closed square
`[i*6, i*6+6] × [j*6, j*6+6]`, from `Rectangle((i * 6, j * 6), 6, 6, ...)`. -/
def inCell (i j : ℕ) (p : ℚ × ℚ) : Prop :=
  (i : ℚ) * 6 ≤ p.1 ∧ p.1 ≤ (i : ℚ) * 6 + 6 ∧
  (j : ℚ) * 6 ≤ p.2 ∧ p.2 ≤ (j : ℚ) * 6 + 6

/-- Membership in the open interior of the L2 cell `(i, j)`. -/
def inCellInterior (i j : ℕ) (p : ℚ × ℚ) : Prop :=
  (i : ℚ) * 6 < p.1 ∧ p.1 < (i : ℚ) * 6 + 6 ∧
  (j : ℚ) * 6 < p.2 ∧ p.2 < (j : ℚ) * 6 + 6

/-- Membership in the outer (L1) tile `[0, 36] × [0, 36]`, from
`Rectangle((0, 0), 36, 36, ...)`. -/
def inOuter (p : ℚ × ℚ) : Prop :=
  0 ≤ p.1 ∧ p.1 ≤ 36 ∧ 0 ≤ p.2 ∧ p.2 ≤ 36

/-- The alternating cell fill of the nesting-detail figure:
`color = 'white' if (i + j) % 2 == 0 else 'lightgray'` (line 313). -/
def cellColor (i j : ℕ) : String :=
  if (i + j) % 2 = 0 then "white" else "lightgray"

/-- `colors_2d` (line 309 of the source): built but never read afterwards. -/
def colors_2d : List (List String) :=
  List.replicate 3
    (["white", "lightgray"] ++ ["white", "lightgray"] ++ ["white", "lightgray"])

/-- The two drawing calls of one iteration of the detail-figure L2 loop
(lines 310-320): the cell rectangle and its `f'L2\n({i},{j})'` label. -/
def detailCellCmds (i j : ℕ) : List DrawCmd :=
  [DrawCmd.rect ((i : ℚ) * 6) ((j : ℚ) * 6) 6 6 "darkgreen"
     (FillColor.named (cellColor i j)),
   DrawCmd.text ((i : ℚ) * 6 + 3) ((j : ℚ) * 6 + 3)
     ("L2\n(" ++ toString i ++ "," ++ toString j ++ ")")]

/-- The info box text of the detail figure (lines 339-349). -/
def infoText : String :=
  "L1 Tile:\n• 36,000 m × 36,000 m\n• 600 × 600 pixels\n• 60 m per pixel\n\n" ++
  "L2 Tiles (each):\n• 6,000 m × 6,000 m  \n• 600 × 600 pixels\n• 10 m per pixel\n\n" ++
  "Nesting: 6 × 6 = 36 tiles"

/-- All drawing calls of the nesting-detail figure (lines 299-354), in
program order: L1 boundary, L1 label, the 6×6 L2 loop, two dimension
arrows with their captions, the grid lines, and the info box. -/
def detailCmds : List DrawCmd :=
  [DrawCmd.rect 0 0 36 36 "darkblue" (FillColor.named "none"),
   DrawCmd.text (-1/2) 18 "L1 Tile\n36 km"] ++
  ((List.range 6).flatMap fun i =>
    (List.range 6).flatMap fun j => detailCellCmds i j) ++
  [DrawCmd.arrow 0 (-1/2) 36 (-1/2),
   DrawCmd.text 18 (-4/5) "36 km (36,000 m)",
   DrawCmd.arrow 0 0 6 0,
   DrawCmd.text 3 (-3/10) "6 km"] ++
  ((List.range 7).flatMap fun i =>
    [DrawCmd.vline ((i : ℚ) * 6), DrawCmd.hline ((i : ℚ) * 6)]) ++
  [DrawCmd.text (75/2) 18 infoText]

/-- One panel of the overview figure: its `plt.subplot(2, 3, k)` index, its
`set_title` string, and its drawing calls in program order. -/
structure Panel where
  subplotIndex : ℕ
  title : String
  cmds : List DrawCmd
  deriving DecidableEq, Repr

/-- Subplot 1 (lines 20-62), `plt.subplot(2, 3, 1)`: the grid hierarchy
concept panel with the L1 tile, the 6×6 L2 grid, a highlighted L2 tile and
the nesting annotation. -/
def panel1 : Panel :=
  { subplotIndex := 1
    title := "Grid Hierarchy Concept"
    cmds :=
      [DrawCmd.rect 0 0 36 36 "darkblue" (FillColor.named "lightblue"),
       DrawCmd.text 18 (75/2) "L1 Tile: 36 km × 36 km",
       DrawCmd.text 18 (-2) "600×600 pixels @ 60m/px"] ++
      ((List.range 6).flatMap fun i =>
        (List.range 6).map fun j =>
          DrawCmd.rect ((i : ℚ) * 6) ((j : ℚ) * 6) 6 6 "darkgreen"
            (FillColor.named "lightgreen")) ++
      [DrawCmd.rect 12 18 6 6 "red" (FillColor.named "yellow"),
       DrawCmd.text 15 21 "L2",
       DrawCmd.text 3 33 "L2 tiles: 6 km × 6 km",
       DrawCmd.text 3 31 "600×600 px @ 10m/px",
       DrawCmd.annotate "6 × 6 = 36 L2 tiles\nper L1 tile" 30 3 28 8] }

/-- `colors = plt.cm.viridis(np.linspace(0, 1, 36))` (line 76): the 36
viridis colors, identified by their `np.linspace(0, 1, 36)` parameters
`k / 35` for `k = 0, ..., 35`. -/
def colors : List FillColor :=
  (List.range 36).map fun k => FillColor.viridis ((k : ℚ) / 35)

/-- The iteration order of the tile-index loop (lines 78-79): `row` outer,
`col` inner, each over `range(6)`. -/
def indexCellOrder : List (ℕ × ℕ) :=
  (List.range 6).flatMap fun row => (List.range 6).map fun col => (row, col)

/-- The tile-index loop body (lines 78-85) as a recursion over the cell
list, threading the running `idx`.  Each iteration reads `colors[idx]`
(modelled with `List.get?`, so an out-of-bounds access makes the whole loop
return `none`, the analogue of Python's `IndexError`), draws the cell
rectangle and its `f'{col},{row}'` label, and does `idx += 1`.  Returns the
final `idx`, the list of indices at which `colors` was read, and the
drawing calls. -/
def indexLoop : List (ℕ × ℕ) → ℕ → Option (ℕ × List ℕ × List DrawCmd)
  | [], idx => some (idx, [], [])
  | (row, col) :: rest, idx =>
    match colors.get? idx with
    | none => none
    | some c =>
      match indexLoop rest (idx + 1) with
      | none => none
      | some (finalIdx, accesses, cmds) =>
        some (finalIdx, idx :: accesses,
          DrawCmd.rect (col : ℚ) (row : ℚ) 1 1 "black" c ::
          DrawCmd.text ((col : ℚ) + 1/2) ((row : ℚ) + 1/2)
            (toString col ++ "," ++ toString row) :: cmds)

/-- The drawing calls produced by the tile-index loop (`[]` on the
never-taken `IndexError` branch). -/
def panel2LoopCmds : List DrawCmd :=
  match indexLoop indexCellOrder 0 with
  | some (_, _, cmds) => cmds
  | none => []

/-- Subplot 2 (lines 67-104), `plt.subplot(2, 3, 2)`: the tile-index panel.
Its body is the `indexLoop` output followed by the four red highlight
rectangles (`highlight_cols = [2, 3]`, `highlight_rows = [3, 4]`) and two
captions. -/
def panel2 : Panel :=
  { subplotIndex := 2
    title := "Tile Index System"
    cmds :=
      panel2LoopCmds ++
      ([2, 3].flatMap fun col =>
        ([3, 4] : List ℕ).map fun row =>
          DrawCmd.rect (col : ℚ) (row : ℚ) 1 1 "red" (FillColor.named "none")) ++
      [DrawCmd.text (33/10) (67/10) "Example: L2 tiles (2-3, 3-4)",
       DrawCmd.text (33/10) (-1) "→ Parent L1: col=0, row=0"] }

/-- The `components` list of subplot 3 (lines 121-126): tile-ID part,
label, description. -/
def components : List (String × String × String) :=
  [("43S", "UTM Zone", "Zone 43, Southern Hemisphere"),
   ("L1", "Grid Level", "Level 1 (36km tiles)"),
   ("0006", "Column", "Column index from origin"),
   ("0114", "Row", "Row index from origin")]

/-- The per-component text calls of subplot 3 (lines 128-134):
`y = 0.65 - i * 0.15` for the `i`-th component. -/
def componentCmds (i : ℕ) (c : String × String × String) : List DrawCmd :=
  let y : ℚ := 65/100 - (i : ℚ) * (15/100)
  [DrawCmd.text (15/100) y c.1,
   DrawCmd.text (35/100) y ("← " ++ c.2.1),
   DrawCmd.text (35/100) (y - 3/100) c.2.2]

/-- Subplot 3 (lines 109-142), `plt.subplot(2, 3, 3)`: the tile-ID format
panel, all text calls. -/
def panel3 : Panel :=
  { subplotIndex := 3
    title := "Tile Identification Format"
    cmds :=
      [DrawCmd.text (1/2) (85/100) "43S_L1_0006_0114"] ++
      ((List.range components.length).flatMap fun i =>
        match components.get? i with
        | some c => componentCmds i c
        | none => []) ++
      [DrawCmd.text (1/2) (5/100) "Example tile contains point at:",
       DrawCmd.text (1/2) (-2/100) "UTM: 399,338 E, 4,126,677 N",
       DrawCmd.text (1/2) (-8/100) "Lon/Lat: 73.5°E, 53.0°S"] }

/-- `zones = range(42, 59)` (line 155). -/
def zones : List ℤ := (List.range 17).map fun k => 42 + (k : ℤ)

/-- One iteration of the UTM-zone loop (lines 156-172): `lon_min = -183 +
z * 6`, `lon_max = lon_min + 6`; the zone rectangle is drawn under the
guard `44 <= lon_min <= 160 or 44 <= lon_max <= 160`, and inside that
guard the `f'{z}S'` label is drawn under `44 <= lon_min + 3 <= 160`. -/
def zoneCmds (z : ℤ) : List DrawCmd :=
  let lonMin : ℤ := -183 + z * 6
  let lonMax : ℤ := lonMin + 6
  if (44 ≤ lonMin ∧ lonMin ≤ 160) ∨ (44 ≤ lonMax ∧ lonMax ≤ 160) then
    let color : String := if z % 2 = 0 then "lightblue" else "lightgreen"
    let rectCmd : DrawCmd :=
      DrawCmd.rect ((max lonMin 40 : ℤ) : ℚ) (-70)
        ((min 6 (165 - max lonMin 40) : ℤ) : ℚ) 20 "black" (FillColor.named color)
    if 44 ≤ lonMin + 3 ∧ lonMin + 3 ≤ 160 then
      [rectCmd,
       DrawCmd.text ((lonMin + 3 : ℤ) : ℚ) (-71) (toString z ++ "S")]
    else [rectCmd]
  else []

/-- The `locations` list (lines 175-179): longitude, latitude, name, marker
color. -/
def locations : List (ℚ × ℚ × String × String) :=
  [(147/2, -53, "Heard Is.", "red"),
   (15885/100, -546/10, "Macquarie Is.", "red"),
   (7797/100, -6858/100, "Davis Stn", "blue")]

/-- Subplot 4 (lines 147-196), `plt.subplot(2, 3, 4)`: the UTM zone
coverage panel: the zone loop, the location markers and their captions, the
two AAT boundary vertical lines and the UTM-limit horizontal line. -/
def panel4 : Panel :=
  { subplotIndex := 4
    title := "UTM Zone Coverage (AAT)"
    cmds :=
      zones.flatMap zoneCmds ++
      (locations.flatMap fun l =>
        [DrawCmd.point l.1 l.2.1 l.2.2.2,
         DrawCmd.text l.1 (l.2.1 - 3/2) l.2.2.1]) ++
      [DrawCmd.vline 44, DrawCmd.vline 160, DrawCmd.hline (-70)] }

/-- The `levels` list of subplot 5 (lines 206-211): level name, resolution,
tile size, pixel dimensions, use description, box color. -/
def levels : List (String × String × String × String × String × String) :=
  [("L1", "60 m/pixel", "36 km × 36 km", "600 × 600 px",
    "Regional overview\nBroad coverage", "lightblue"),
   ("L2", "10 m/pixel", "6 km × 6 km", "600 × 600 px",
    "Detailed analysis\nHigh resolution", "lightgreen")]

/-- The per-level drawing calls of subplot 5 (lines 213-234):
`y = 0.7 - i * 0.4`, one fancy box and five text calls. -/
def levelCmds (i : ℕ) (l : String × String × String × String × String × String) :
    List DrawCmd :=
  let y : ℚ := 7/10 - (i : ℚ) * (4/10)
  [DrawCmd.fancyBox (5/100) (y - 15/100) (9/10) (25/100)
     (FillColor.named l.2.2.2.2.2),
   DrawCmd.text (15/100) (y + 5/100) l.1,
   DrawCmd.text (1/2) (y + 5/100) l.2.1,
   DrawCmd.text (1/2) (y - 2/100) l.2.2.1,
   DrawCmd.text (1/2) (y - 8/100) l.2.2.2.1,
   DrawCmd.text (88/100) y l.2.2.2.2.1]

/-- Subplot 5 (lines 201-240), `plt.subplot(2, 3, 5)`: the resolution
comparison panel. -/
def panel5 : Panel :=
  { subplotIndex := 5
    title := "Resolution Levels"
    cmds :=
      ((List.range levels.length).flatMap fun i =>
        match levels.get? i with
        | some l => levelCmds i l
        | none => []) ++
      [DrawCmd.text (1/2) (15/100)
        "Same pixel count per tile → Same display size"] }

/-- The `principles` list of subplot 6 (lines 249-269). -/
def principles : List String :=
  ["✓ Consistent Coverage",
   "  • Edge-to-edge tiling",
   "  • No gaps or overlaps within zones",
   "",
   "✓ Clean Nesting",
   "  • 6×6 L2 tiles per L1 tile",
   "  • Simple parent-child relationships",
   "",
   "✓ Sentinel-2 Alignment",
   "  • Compatible grid origins",
   "  • Integration with satellite data",
   "",
   "✓ Human-Viewable",
   "  • 600×600 pixel images",
   "  • Practical file sizes",
   "",
   "✓ Zone-Based",
   "  • Minimal distortion per zone",
   "  • Standard UTM projections"]

/-- The principles loop (lines 271-282): starting at `y = 0.95` and
stepping by `0.05`, each line is drawn at x `0.05` (headline or plain) or
`0.1` (bullet). -/
def principlesCmds : List String → ℚ → List DrawCmd
  | [], _ => []
  | line :: rest, y =>
    (if line.startsWith "✓" then DrawCmd.text (5/100) y line
     else if line.startsWith "  •" then DrawCmd.text (1/10) y line
     else DrawCmd.text (5/100) y line) :: principlesCmds rest (y - 5/100)

/-- Subplot 6 (lines 245-282), `plt.subplot(2, 3, 6)`: the design
principles panel. -/
def panel6 : Panel :=
  { subplotIndex := 6
    title := "Design Principles"
    cmds := principlesCmds principles (95/100) }

/-- The six panels of the overview figure, in the order the script draws
them. -/
def overviewPanels : List Panel :=
  [panel1, panel2, panel3, panel4, panel5, panel6]

/-- The panel that subplot position `k` of the overview figure receives, as
a function of `k` (and the script's literal constants) alone: panel content
never reads another panel. Positions are the `1..6` of
`plt.subplot(2, 3, k)`; other arguments are unused. -/
def panelAt : ℕ → Panel
  | 1 => panel1
  | 2 => panel2
  | 3 => panel3
  | 4 => panel4
  | 5 => panel5
  | 6 => panel6
  | _ => { subplotIndex := 0, title := "", cmds := [] }

/-- Output path of the overview figure (line 285). -/
def overviewPath : String := "/mnt/user-data/outputs/grid_system_overview.png"

/-- Output path of the nesting-detail figure (line 357). -/
def nestingPath : String := "/mnt/user-data/outputs/grid_nesting_detail.png"

/-- An observable effect of the script: a completed `plt.savefig(path,
dpi=..., bbox_inches='tight', facecolor=...)`, or a console `print`. -/
inductive Event where
  | save (path : String) (dpi : ℕ) (facecolor : String)
  | println (msg : String)
  deriving DecidableEq, Repr

/-- Whether an event is a file write. -/
def Event.isSave : Event → Bool
  | Event.save _ _ _ => true
  | Event.println _ => false

/-- The console status line printed after the first `savefig` (line 287). -/
def overviewMsg : String := "Grid system overview diagram saved!"

/-- The console status line printed after the second `savefig` (line 359). -/
def nestingMsg : String := "Grid nesting detail diagram saved!"

/-- The execution environment a Python process could in principle consult:
command-line arguments, environment variables, and readable files.  The
script consults none of them. -/
structure Env where
  argv : List String
  envVars : String → Option String
  fileContents : String → Option String

/-- The full sequence of drawing calls the script issues, in program order,
as a function of the execution environment: the six overview panels
followed by the detail figure.  The script reads no arguments, environment
variables or files, so the environment argument is never consulted. -/
def drawTrace (_e : Env) : List DrawCmd :=
  (overviewPanels.flatMap Panel.cmds) ++ detailCmds

/-- The script's effect trace (lines 284-363), parametrised by a write
oracle `w` giving, for each path, the error `savefig` raises there (`none`
= the write succeeds).  There is no `try`/`except` in the script, so a
raised error ends the run at once: the result is the list of effects that
happened before the error, paired with the propagated error if any.
Both `savefig` calls pass `dpi=300` and `facecolor='white'`. -/
def runScript (w : String → Option String) : List Event × Option String :=
  match w overviewPath with
  | some e => ([], some e)
  | none =>
    let ev1 : List Event :=
      [Event.save overviewPath 300 "white", Event.println overviewMsg]
    match w nestingPath with
    | some e => (ev1, some e)
    | none =>
      (ev1 ++
       [Event.save nestingPath 300 "white",
        Event.println nestingMsg,
        Event.println "\nDiagrams created successfully!",
        Event.println "- grid_system_overview.png: Complete system overview",
        Event.println "- grid_nesting_detail.png: Detailed view of tile nesting"],
       none)

/-- Discriminates the cell rectangles of the detail figure: the patches of
width and height 6 (the L1 boundary has width 36). -/
def isCellRect : DrawCmd → Bool
  | DrawCmd.rect _ _ w h _ _ => w == 6 && h == 6
  | _ => false

/-- Discriminates rectangle patches (used for the zone loop, whose only
rectangles are zone rectangles). -/
def isRectCmd : DrawCmd → Bool
  | DrawCmd.rect _ _ _ _ _ _ => true
  | _ => false

/-- Discriminates text calls (used for the zone loop, whose only text calls
are zone labels). -/
def isTextCmd : DrawCmd → Bool
  | DrawCmd.text _ _ _ => true
  | _ => false

/-- Every drawing call of an in-range iteration of the detail figure's L2
loop occurs in the detail figure's command list. -/
lemma detailCell_mem (i j : ℕ) (hi : i < 6) (hj : j < 6) (c : DrawCmd)
    (hc : c ∈ detailCellCmds i j) : c ∈ detailCmds := by
  unfold detailCmds
  refine List.mem_append_left _ (List.mem_append_left _
    (List.mem_append_left _ (List.mem_append_right _ ?_)))
  exact List.mem_flatMap.mpr
    ⟨i, List.mem_range.mpr hi, List.mem_flatMap.mpr ⟨j, List.mem_range.mpr hj, hc⟩⟩

/-- Every abscissa of the outer tile lies in some cell column. -/
lemma exists_cell_coord (x : ℚ) (h0 : 0 ≤ x) (h36 : x ≤ 36) :
    ∃ i : ℕ, i < 6 ∧ (i : ℚ) * 6 ≤ x ∧ x ≤ (i : ℚ) * 6 + 6 := by
  rcases le_or_lt x 6 with h | h
  · exact ⟨0, by norm_num, by push_cast; linarith, by push_cast; linarith⟩
  rcases le_or_lt x 12 with h2 | h2
  · exact ⟨1, by norm_num, by push_cast; linarith, by push_cast; linarith⟩
  rcases le_or_lt x 18 with h3 | h3
  · exact ⟨2, by norm_num, by push_cast; linarith, by push_cast; linarith⟩
  rcases le_or_lt x 24 with h4 | h4
  · exact ⟨3, by norm_num, by push_cast; linarith, by push_cast; linarith⟩
  rcases le_or_lt x 30 with h5 | h5
  · exact ⟨4, by norm_num, by push_cast; linarith, by push_cast; linarith⟩
  exact ⟨5, by norm_num, by push_cast; linarith, by push_cast; linarith⟩

/-- Distinct cell columns have disjoint open coordinate intervals. -/
lemma cell_coord_interior_disjoint (i i' : ℕ) (hne : i ≠ i') (x : ℚ)
    (h1 : (i : ℚ) * 6 < x) (h2 : x < (i : ℚ) * 6 + 6)
    (h3 : (i' : ℚ) * 6 < x) (h4 : x < (i' : ℚ) * 6 + 6) : False := by
  rcases Nat.lt_or_ge i i' with h | h
  · have hc : (i : ℚ) + 1 ≤ (i' : ℚ) := by exact_mod_cast h
    linarith
  · have hlt : i' < i := Nat.lt_of_le_of_ne h (Ne.symm hne)
    have hc : (i' : ℚ) + 1 ≤ (i : ℚ) := by exact_mod_cast hlt
    linarith

/-- C2: the inner-tile edge times the nesting factor equals the outer-tile
edge (6 × 6 = 36); every inner cell `(i, j)` with `i, j < 6`, placed at
`(i*6, j*6)` with size 6×6, lies inside the 36×36 outer tile; the cells
cover the outer tile; and distinct cells have disjoint interiors — an
exact tiling. -/
theorem l2_cells_tile_l1 :
    l2Edge * (nestingFactor : ℚ) = l1Edge ∧
    (∀ i j : ℕ, i < nestingFactor → j < nestingFactor →
      ∀ p : ℚ × ℚ, inCell i j p → inOuter p) ∧
    (∀ p : ℚ × ℚ, inOuter p →
      ∃ i j : ℕ, i < nestingFactor ∧ j < nestingFactor ∧ inCell i j p) ∧
    (∀ i j i' j' : ℕ, (i, j) ≠ (i', j') →
      ∀ p : ℚ × ℚ, ¬(inCellInterior i j p ∧ inCellInterior i' j' p)) := by
  refine ⟨by norm_num [l2Edge, nestingFactor, l1Edge], ?_, ?_, ?_⟩
  · intro i j hi hj p hp
    obtain ⟨h1, h2, h3, h4⟩ := hp
    have hi5 : (i : ℚ) ≤ 5 := by exact_mod_cast Nat.lt_succ_iff.mp hi
    have hj5 : (j : ℚ) ≤ 5 := by exact_mod_cast Nat.lt_succ_iff.mp hj
    have hi0 : (0 : ℚ) ≤ (i : ℚ) := Nat.cast_nonneg i
    have hj0 : (0 : ℚ) ≤ (j : ℚ) := Nat.cast_nonneg j
    exact ⟨by linarith, by linarith, by linarith, by linarith⟩
  · intro p hp
    obtain ⟨h1, h2, h3, h4⟩ := hp
    obtain ⟨i, hi, hix1, hix2⟩ := exists_cell_coord p.1 h1 h2
    obtain ⟨j, hj, hjy1, hjy2⟩ := exists_cell_coord p.2 h3 h4
    exact ⟨i, j, hi, hj, hix1, hix2, hjy1, hjy2⟩
  · intro i j i' j' hne p hboth
    obtain ⟨⟨a1, a2, a3, a4⟩, ⟨b1, b2, b3, b4⟩⟩ := hboth
    rcases eq_or_ne i i' with rfl | hii
    · rcases eq_or_ne j j' with rfl | hjj
      · exact hne rfl
      · exact cell_coord_interior_disjoint j j' hjj p.2 a3 a4 b3 b4
    · exact cell_coord_interior_disjoint i i' hii p.1 a1 a2 b1 b2

/-- Witness for `l2_cells_tile_l1` at concrete inputs: cell `(2, 3)`
contains `(13, 20)`, which the cover then re-finds, and the interiors of
cells `(0, 0)` and `(1, 0)` do not both contain `(3, 3)`. -/
theorem l2_cells_tile_l1_witness :
    inOuter (13, 20) ∧
    (∃ i j : ℕ, i < nestingFactor ∧ j < nestingFactor ∧ inCell i j (13, 20)) ∧
    ¬(inCellInterior 0 0 (3, 3) ∧ inCellInterior 1 0 (3, 3)) :=
  ⟨l2_cells_tile_l1.2.1 2 3 (by norm_num [nestingFactor]) (by norm_num [nestingFactor]) (13, 20)
     (by norm_num [inCell]),
   l2_cells_tile_l1.2.2.1 (13, 20) (by norm_num [inOuter]),
   l2_cells_tile_l1.2.2.2 0 0 1 0 (by decide) (3, 3)⟩

/-- C5: in the detail figure's 6×6 subdivision, the cell `(i, j)` drawn at
`(i*6, j*6)` is filled `white` exactly when `i + j` is even and
`lightgray` exactly when `i + j` is odd, so edge-adjacent cells always
get different fills; the cell rectangle with that fill is among the
figure's drawing calls. -/
theorem cell_shading_alternates :
    ∀ i j : ℕ, i < 6 → j < 6 →
      ((cellColor i j = "white" ↔ (i + j) % 2 = 0) ∧
       (cellColor i j = "lightgray" ↔ (i + j) % 2 = 1)) ∧
      (i + 1 < 6 → cellColor (i + 1) j ≠ cellColor i j) ∧
      (j + 1 < 6 → cellColor i (j + 1) ≠ cellColor i j) ∧
      DrawCmd.rect ((i : ℚ) * 6) ((j : ℚ) * 6) 6 6 "darkgreen"
        (FillColor.named (cellColor i j)) ∈ detailCmds := by
  intro i j hi hj
  have hmem : DrawCmd.rect ((i : ℚ) * 6) ((j : ℚ) * 6) 6 6 "darkgreen"
      (FillColor.named (cellColor i j)) ∈ detailCmds :=
    detailCell_mem i j hi hj _ (by simp [detailCellCmds])
  rcases Nat.mod_two_eq_zero_or_one (i + j) with h | h
  · have h1 : (i + 1 + j) % 2 = 1 := by omega
    have h2 : (i + (j + 1)) % 2 = 1 := by omega
    exact ⟨⟨by simp [cellColor, h], by simp [cellColor, h]⟩,
      fun _ => by simp [cellColor, h, h1],
      fun _ => by simp [cellColor, h, h2], hmem⟩
  · have h1 : (i + 1 + j) % 2 = 0 := by omega
    have h2 : (i + (j + 1)) % 2 = 0 := by omega
    exact ⟨⟨by simp [cellColor, h], by simp [cellColor, h]⟩,
      fun _ => by simp [cellColor, h, h1],
      fun _ => by simp [cellColor, h, h2], hmem⟩

/-- Witness for `cell_shading_alternates` at cell `(2, 3)` and its
neighbor `(3, 3)`. -/
theorem cell_shading_alternates_witness :
    (cellColor 2 3 = "lightgray" ↔ (2 + 3) % 2 = 1) ∧
    cellColor 3 3 ≠ cellColor 2 3 :=
  ⟨(cell_shading_alternates 2 3 (by decide) (by decide)).1.2,
   (cell_shading_alternates 2 3 (by decide) (by decide)).2.1 (by decide)⟩

/-- C6: the script is a deterministic function of no input — it consults
neither arguments, environment variables nor files, so any two runs issue
the identical sequence of drawing calls (same shapes and labels at the
same positions), regenerating the same figure content. -/
theorem drawTrace_ignores_env : ∀ e₁ e₂ : Env, drawTrace e₁ = drawTrace e₂ :=
  fun _ _ => rfl

/-- C3: the overview figure has exactly six panels, at subplot positions
1..6, one per listed aspect (their `set_title` strings), and the panel at
each position is a function of the position and the script's literal
constants alone (`panelAt`) — no panel's content reads another panel's
output. -/
theorem overview_six_panels :
    overviewPanels.length = 6 ∧
    overviewPanels.map Panel.subplotIndex = [1, 2, 3, 4, 5, 6] ∧
    overviewPanels.map Panel.title =
      ["Grid Hierarchy Concept", "Tile Index System",
       "Tile Identification Format", "UTM Zone Coverage (AAT)",
       "Resolution Levels", "Design Principles"] ∧
    ∀ k : ℕ, 1 ≤ k → k ≤ 6 → overviewPanels.get? (k - 1) = some (panelAt k) := by
  refine ⟨rfl, rfl, rfl, ?_⟩
  intro k h1 h6
  interval_cases k <;> rfl

/-- Witness for `overview_six_panels` at position 1. -/
theorem overview_six_panels_witness :
    overviewPanels.get? (1 - 1) = some (panelAt 1) :=
  overview_six_panels.2.2.2 1 (by norm_num) (by norm_num)

/-- C4: the nesting-detail figure contains exactly 36 cell rectangles of
size 6×6 — the 6×6 grid at positions `(i*6, j*6)` — each with its
per-cell label `'L2\n(i,j)'`, plus the 36×36 outer boundary rectangle,
the two dimension annotation arrows, and the side info box. -/
theorem detail_figure_contents :
    (detailCmds.filter isCellRect).length = 36 ∧
    (∀ i j : ℕ, i < 6 → j < 6 →
      DrawCmd.rect ((i : ℚ) * 6) ((j : ℚ) * 6) 6 6 "darkgreen"
        (FillColor.named (cellColor i j)) ∈ detailCmds ∧
      DrawCmd.text ((i : ℚ) * 6 + 3) ((j : ℚ) * 6 + 3)
        ("L2\n(" ++ toString i ++ "," ++ toString j ++ ")") ∈ detailCmds) ∧
    DrawCmd.rect 0 0 36 36 "darkblue" (FillColor.named "none") ∈ detailCmds ∧
    DrawCmd.arrow 0 (-1/2) 36 (-1/2) ∈ detailCmds ∧
    DrawCmd.arrow 0 0 6 0 ∈ detailCmds ∧
    DrawCmd.text (75/2) 18 infoText ∈ detailCmds := by
  refine ⟨rfl, ?_, by simp [detailCmds], by simp [detailCmds],
    by simp [detailCmds], by simp [detailCmds]⟩
  intro i j hi hj
  exact ⟨detailCell_mem i j hi hj _ (by simp [detailCellCmds]),
         detailCell_mem i j hi hj _ (by simp [detailCellCmds])⟩

/-- Witness for `detail_figure_contents` at cell `(0, 0)`. -/
theorem detail_figure_contents_witness :
    DrawCmd.text (((0 : ℕ) : ℚ) * 6 + 3) (((0 : ℕ) : ℚ) * 6 + 3)
      ("L2\n(" ++ toString (0 : ℕ) ++ "," ++ toString (0 : ℕ) ++ ")") ∈
      detailCmds :=
  (detail_figure_contents.2.1 0 0 (by norm_num) (by norm_num)).2

/-- C1: a run to completion writes exactly two files — the overview PNG
then the nesting-detail PNG at their fixed paths, each saved with
`dpi=300` and `facecolor='white'` — and no other file: the write events
of a successful run are precisely those two, and both paths end in
`.png`. -/
theorem run_writes_exactly_two_pngs :
    ∀ w : String → Option String, (runScript w).2 = none →
      (runScript w).1.filter Event.isSave =
        [Event.save overviewPath 300 "white",
         Event.save nestingPath 300 "white"] ∧
      ((runScript w).1.filter Event.isSave).length = 2 ∧
      ".png".data.isSuffixOf overviewPath.data = true ∧
      ".png".data.isSuffixOf nestingPath.data = true := by
  intro w h
  cases hw1 : w overviewPath with
  | some e => simp [runScript, hw1] at h
  | none =>
    cases hw2 : w nestingPath with
    | some e => simp [runScript, hw1, hw2] at h
    | none =>
      have hrun : (runScript w).1 =
          [Event.save overviewPath 300 "white", Event.println overviewMsg,
           Event.save nestingPath 300 "white", Event.println nestingMsg,
           Event.println "\nDiagrams created successfully!",
           Event.println "- grid_system_overview.png: Complete system overview",
           Event.println "- grid_nesting_detail.png: Detailed view of tile nesting"] := by
        simp [runScript, hw1, hw2]
      rw [hrun]
      exact ⟨rfl, rfl, by decide, by decide⟩

/-- Witness for `run_writes_exactly_two_pngs`: the all-writes-succeed
oracle. -/
theorem run_writes_exactly_two_pngs_witness :
    (runScript fun _ => none).1.filter Event.isSave =
      [Event.save overviewPath 300 "white",
       Event.save nestingPath 300 "white"] :=
  (run_writes_exactly_two_pngs (fun _ => none) rfl).1

/-- Write oracle under which the overview save fails. -/
def failOverviewOracle : String → Option String :=
  fun p => if p = overviewPath then some "write failed" else none

/-- Write oracle under which only the nesting-detail save fails. -/
def failNestingOracle : String → Option String :=
  fun p => if p = nestingPath then some "disk full" else none

/-- C7: the script performs no validation, retries or error handling: an
error raised by the plotting library at either `savefig` propagates
unchanged and terminates the run at that point (nothing after it
happens). -/
theorem savefig_errors_propagate :
    ∀ (w : String → Option String) (e : String),
      (w overviewPath = some e → runScript w = ([], some e)) ∧
      (w overviewPath = none → w nestingPath = some e →
        runScript w =
          ([Event.save overviewPath 300 "white", Event.println overviewMsg],
           some e)) := by
  intro w e
  exact ⟨fun h1 => by simp [runScript, h1],
         fun h1 h2 => by simp [runScript, h1, h2]⟩

/-- Witness for `savefig_errors_propagate`: under `failOverviewOracle` the
run ends at once with the propagated error. -/
theorem savefig_errors_propagate_witness :
    runScript failOverviewOracle = ([], some "write failed") :=
  (savefig_errors_propagate failOverviewOracle "write failed").1
    (by simp [failOverviewOracle])

/-- C8: failure is never silently treated as success: an error-free run
has written both files; each success message is only ever printed in
traces that contain the corresponding completed write; a run whose first
write fails reports nothing; and a failed nesting-detail write is never
followed by its success message. -/
theorem no_silent_partial_success :
    ∀ w : String → Option String,
      ((runScript w).2 = none →
        Event.save overviewPath 300 "white" ∈ (runScript w).1 ∧
        Event.save nestingPath 300 "white" ∈ (runScript w).1) ∧
      (Event.println overviewMsg ∈ (runScript w).1 →
        Event.save overviewPath 300 "white" ∈ (runScript w).1) ∧
      (Event.println nestingMsg ∈ (runScript w).1 →
        Event.save nestingPath 300 "white" ∈ (runScript w).1) ∧
      (∀ e, w overviewPath = some e → (runScript w).1 = []) ∧
      (∀ e, w nestingPath = some e →
        Event.println nestingMsg ∉ (runScript w).1) := by
  intro w
  cases hw1 : w overviewPath with
  | some e1 =>
    refine ⟨?_, ?_, ?_, ?_, ?_⟩ <;> simp [runScript, hw1]
  | none =>
    cases hw2 : w nestingPath with
    | some e2 =>
      refine ⟨?_, ?_, ?_, ?_, ?_⟩ <;>
        simp [runScript, hw1, hw2, overviewMsg, nestingMsg]
    | none =>
      refine ⟨?_, ?_, ?_, ?_, ?_⟩ <;>
        simp [runScript, hw1, hw2, overviewMsg, nestingMsg]

/-- Witness for `no_silent_partial_success`: under `failNestingOracle` the
nesting-detail success message is absent from the trace. -/
theorem no_silent_partial_success_witness :
    Event.println nestingMsg ∉ (runScript failNestingOracle).1 :=
  (no_silent_partial_success failNestingOracle).2.2.2.2 "disk full"
    (by simp [failNestingOracle])

/-- Each visited cell of the tile-index loop contributes its
`f'{col},{row}'` label text to the loop's drawing calls. -/
lemma indexLoop_label_mem :
    ∀ (cells : List (ℕ × ℕ)) (idx finalIdx : ℕ) (accesses : List ℕ)
      (cmds : List DrawCmd),
      indexLoop cells idx = some (finalIdx, accesses, cmds) →
      ∀ rc ∈ cells,
        DrawCmd.text ((rc.2 : ℚ) + 1/2) ((rc.1 : ℚ) + 1/2)
          (toString rc.2 ++ "," ++ toString rc.1) ∈ cmds := by
  intro cells
  induction cells with
  | nil =>
    intro idx finalIdx accesses cmds _ rc hrc
    cases hrc
  | cons hd tl ih =>
    intro idx finalIdx accesses cmds hloop rc hrc
    obtain ⟨row, col⟩ := hd
    rw [indexLoop] at hloop
    cases hg : colors.get? idx with
    | none => rw [hg] at hloop; cases hloop
    | some c =>
      rw [hg] at hloop
      cases hrest : indexLoop tl (idx + 1) with
      | none => rw [hrest] at hloop; cases hloop
      | some trip =>
        obtain ⟨f, acc, cs⟩ := trip
        rw [hrest] at hloop
        simp only [Option.some.injEq, Prod.mk.injEq] at hloop
        obtain ⟨-, -, hcmds⟩ := hloop
        subst hcmds
        rcases List.mem_cons.mp hrc with hrc | hrc
        · subst hrc
          exact List.mem_cons_of_mem _ (List.mem_cons_self _ _)
        · exact List.mem_cons_of_mem _ (List.mem_cons_of_mem _
            (ih (idx + 1) f acc cs hrest rc hrc))

/-- C9: `colors` has exactly 36 entries; the tile-index loop reads
`colors[idx]` exactly at `idx = 0, ..., 35` (all in bounds — the
`IndexError` branch is never taken) and finishes with `idx = 36`; and the
cell at column `col`, row `row` is labeled `'{col},{row}'`, column
first. -/
theorem index_panel_in_bounds :
    colors.length = 36 ∧
    (∃ cmds : List DrawCmd,
      indexLoop indexCellOrder 0 = some (36, List.range 36, cmds)) ∧
    (∀ k ∈ List.range 36, k < colors.length) ∧
    (∀ row col : ℕ, row < 6 → col < 6 →
      DrawCmd.text ((col : ℚ) + 1/2) ((row : ℚ) + 1/2)
        (toString col ++ "," ++ toString row) ∈ panel2.cmds) := by
  obtain ⟨cmds36, hres⟩ :
      ∃ cmds, indexLoop indexCellOrder 0 = some (36, List.range 36, cmds) :=
    ⟨_, rfl⟩
  refine ⟨rfl, ⟨cmds36, hres⟩, ?_, ?_⟩
  · intro k hk
    simpa [colors] using List.mem_range.mp hk
  · intro row col hrow hcol
    have hcell : (row, col) ∈ indexCellOrder :=
      List.mem_flatMap.mpr ⟨row, List.mem_range.mpr hrow,
        List.mem_map.mpr ⟨col, List.mem_range.mpr hcol, rfl⟩⟩
    have hmem := indexLoop_label_mem indexCellOrder 0 36 (List.range 36)
      cmds36 hres (row, col) hcell
    have hloopc : panel2LoopCmds = cmds36 := by
      rw [panel2LoopCmds, hres]
    exact List.mem_append_left _ (List.mem_append_left _ (hloopc ▸ hmem))

/-- Witness for `index_panel_in_bounds`: the label of the cell at column
1, row 0. -/
theorem index_panel_in_bounds_witness :
    DrawCmd.text (((1 : ℕ) : ℚ) + 1/2) (((0 : ℕ) : ℚ) + 1/2)
      (toString (1 : ℕ) ++ "," ++ toString (0 : ℕ)) ∈ panel2.cmds :=
  index_panel_in_bounds.2.2.2 0 1 (by norm_num) (by norm_num)

/-- C10: for each zone `z` of `range(42, 59)` with `lon_min = -183 + z*6`,
a zone rectangle is drawn exactly under the guard `44 ≤ lon_min ≤ 160 ∨
44 ≤ lon_min + 6 ≤ 160`, which within the range holds exactly for
`z ≤ 57`; the `'{z}S'` label is drawn exactly under
`44 ≤ lon_min + 3 ≤ 160`, which holds exactly for `z ≤ 56`; so zone 57
receives a rectangle without a label and zone 58 receives neither. -/
theorem zone_guard_ranges :
    ∀ z : ℕ, 42 ≤ z → z ≤ 58 →
      (((zoneCmds z).any isRectCmd = true) ↔
        ((44 ≤ -183 + (z : ℤ) * 6 ∧ -183 + (z : ℤ) * 6 ≤ 160) ∨
         (44 ≤ -183 + (z : ℤ) * 6 + 6 ∧ -183 + (z : ℤ) * 6 + 6 ≤ 160))) ∧
      (((zoneCmds z).any isRectCmd = true) ↔ z ≤ 57) ∧
      (((zoneCmds z).any isTextCmd = true) ↔
        (44 ≤ -183 + (z : ℤ) * 6 + 3 ∧ -183 + (z : ℤ) * 6 + 3 ≤ 160)) ∧
      (((zoneCmds z).any isTextCmd = true) ↔ z ≤ 56) ∧
      (z ≤ 56 →
        DrawCmd.text ((-183 + (z : ℤ) * 6 + 3 : ℤ) : ℚ) (-71)
          (toString (z : ℤ) ++ "S") ∈ zoneCmds z) := by
  intro z h42 h58
  interval_cases z <;>
    exact ⟨by decide, by decide, by decide, by decide, by decide⟩

/-- Witness for `zone_guard_ranges` at zone 57: a rectangle is drawn but
no label. -/
theorem zone_guard_ranges_witness :
    ((zoneCmds 57).any isRectCmd = true) ∧
    ¬((zoneCmds 57).any isTextCmd = true) :=
  ⟨(zone_guard_ranges 57 (by norm_num) (by norm_num)).2.1.mpr (by norm_num),
   fun h => absurd
     ((zone_guard_ranges 57 (by norm_num) (by norm_num)).2.2.2.1.mp h)
     (by norm_num)⟩

